import Mathlib

/-!
Shallow embedding of the job-board application routes
(`src/routes/applications.js`), the application/job data model
(`src/models/job.js`) and the role middleware (`src/middleware/auth.js`).

Object ids are modelled as naturals.  A raw route parameter is either a
well-formed id or a malformed string; the mongoose `ObjectId` cast of a
malformed string throws, which the route handlers catch and map to a 404
response (`err.kind === 'ObjectId'`).  Error responses are modelled by an
error-kind enumeration, one constructor per distinct response branch of the
source: `notFound` for the 404 branches, `conflict` for the 400
"You have already applied for this job" branch, `badRequest` for the 400
"Invalid status" branch, `unauthorized` for the 401 "Not authorized"
branches, `forbidden` for the 403 role-middleware rejections, and
`internal` for the 500 catch-all.
-/

namespace JobBoard

abbrev Id := Nat

inductive Role
  | candidate
  | employer
  | admin
deriving DecidableEq

/-- User record (`src/models/user.js` fields used by these routes; the JWT
payload carries id, name, email, role). -/
structure User where
  id : Id
  name : String
  email : String
  role : Role
deriving DecidableEq

/-- Job record, from `JobSchema` in `src/models/job.js` (fields the
application routes read: `_id`, `title`, `employer`, `isActive`; `createdAt`
kept for ordering). -/
structure Job where
  id : Id
  title : String
  company : String
  location : String
  employer : Id
  isActive : Bool
  createdAt : Nat
deriving DecidableEq

/-- Application record, from `ApplicationSchema` in `src/models/job.js`:
`job` and `candidate` references, required `resume`, optional `coverLetter`,
`status` string (schema enum, default `pending`), `createdAt`. -/
structure Application where
  id : Id
  job : Id
  candidate : Id
  resume : String
  coverLetter : Option String
  status : String
  createdAt : Nat
deriving DecidableEq

/-- Database state: the three collections plus a fresh-id source modelling
mongoose `_id` generation for new Application documents. -/
structure DB where
  users : List User
  jobs : List Job
  applications : List Application
  nextAppId : Id
deriving DecidableEq

inductive ErrKind
  | notFound
  | conflict
  | unauthorized
  | badRequest
  | forbidden
  | internal
deriving DecidableEq

/-- Payload values of the emitted WebSocket events. -/
inductive PValue
  | nat (n : Nat)
  | str (s : String)
deriving DecidableEq

/-- One `io.to(room).emit(name, payload)` call. -/
structure Event where
  room : String
  name : String
  payload : List (String × PValue)
deriving DecidableEq

instance {ε α : Type} [DecidableEq ε] [DecidableEq α] : DecidableEq (Except ε α) :=
  fun a b =>
    match a, b with
    | .error e₁, .error e₂ =>
      if h : e₁ = e₂ then isTrue (h ▸ rfl)
      else isFalse fun hh => h (Except.error.inj hh)
    | .ok a₁, .ok a₂ =>
      if h : a₁ = a₂ then isTrue (h ▸ rfl)
      else isFalse fun hh => h (Except.ok.inj hh)
    | .error _, .ok _ => isFalse fun hh => Except.noConfusion hh
    | .ok _, .error _ => isFalse fun hh => Except.noConfusion hh

/-- A raw id route parameter: either a well-formed object id or a malformed
string that the mongoose cast rejects. -/
inductive RawId
  | valid (i : Id)
  | malformed (s : String)
deriving DecidableEq

/-- Mongoose `ObjectId` cast: succeeds exactly on well-formed ids; on a
malformed string the query throws a `CastError` with `kind === 'ObjectId'`. -/
def castId : RawId → Option Id
  | .valid i => some i
  | .malformed _ => none

/-- Status whitelist of `router.put('/:id')`:
`['pending', 'reviewing', 'rejected', 'accepted'].includes(status)`. -/
def validStatus (s : String) : Bool :=
  s == "pending" || s == "reviewing" || s == "rejected" || s == "accepted"

/-- Role middleware `authorizeEmployer` (`src/middleware/auth.js`): passes
iff the authenticated user's role is `employer`; otherwise the request is
rejected with 403 before the handler runs. -/
def authorizeEmployer (u : User) : Bool := u.role == Role.employer

/-- Storage-layer insert of a new Application document.  `ApplicationSchema`
declares a unique compound index on `(job, candidate)`
(`src/models/job.js` line 91), so the store rejects the insert with a
duplicate-key error whenever a document with the same `(job, candidate)`
pair already exists — independently of any check the route performed. -/
def saveNewApplication (db : DB) (a : Application) : Except Unit DB :=
  if db.applications.any (fun b => b.job == a.job && b.candidate == a.candidate) then
    .error ()
  else
    .ok { db with
          applications := db.applications ++ [a],
          nextAppId := db.nextAppId + 1 }

/-- Handler of `router.post('/')` in `src/routes/applications.js`
(lines 11-62), after authentication: `candidateId` is `req.user.id`.
Looks up an active job, rejects a duplicate application, otherwise saves a
new Application (schema default status `pending`) and emits one
`newApplication` event to room `employer-{job.employer}`. -/
def create (db : DB) (candidateId : Id) (jobId : Id) (resume : String)
    (coverLetter : Option String) (now : Nat) :
    Except ErrKind Application × DB × List Event :=
  match db.jobs.find? (fun j => j.id == jobId && j.isActive) with
  | none => (.error .notFound, db, [])
  | some job =>
    match db.applications.find? (fun a => a.job == jobId && a.candidate == candidateId) with
    | some _ => (.error .conflict, db, [])
    | none =>
      let newApp : Application :=
        { id := db.nextAppId, job := jobId, candidate := candidateId,
          resume := resume, coverLetter := coverLetter,
          status := "pending", createdAt := now }
      match saveNewApplication db newApp with
      | .error _ => (.error .internal, db, [])
      | .ok db2 =>
        (.ok newApp, db2,
          [{ room := "employer-" ++ toString job.employer,
             name := "newApplication",
             payload := [("jobId", .nat job.id), ("jobTitle", .str job.title),
                         ("applicationId", .nat newApp.id)] }])

/-- Route `router.put('/:id')` in `src/routes/applications.js`
(lines 128-185), including the `authorizeEmployer` middleware.  Order of
checks mirrors the source: role middleware (403), status whitelist (400),
application lookup — a malformed id makes `findById` throw a `CastError`
which the catch block maps to 404 — missing application (404), then
`!job || job.employer !== req.user.id` (401).  On success the status is
stored and one `applicationStatusUpdated` event is emitted to room
`user-{application.candidate}`. -/
def updateStatus (db : DB) (requester : User) (rawAppId : RawId) (status : String) :
    Except ErrKind Application × DB × List Event :=
  if !(authorizeEmployer requester) then (.error .forbidden, db, [])
  else if !(validStatus status) then (.error .badRequest, db, [])
  else
    match castId rawAppId with
    | none => (.error .notFound, db, [])
    | some appId =>
      match db.applications.find? (fun a => a.id == appId) with
      | none => (.error .notFound, db, [])
      | some application =>
        match db.jobs.find? (fun j => j.id == application.job) with
        | none => (.error .unauthorized, db, [])
        | some job =>
          if job.employer != requester.id then (.error .unauthorized, db, [])
          else
            let updated := { application with status := status }
            let db2 := { db with applications :=
              db.applications.map (fun a => if a.id == appId then updated else a) }
            (.ok updated, db2,
              [{ room := "user-" ++ toString application.candidate,
                 name := "applicationStatusUpdated",
                 payload := [("applicationId", .nat application.id),
                             ("jobTitle", .str job.title),
                             ("newStatus", .str status)] }])

/-- Minimal candidate projection used by
`.populate('candidate', 'name email')`. -/
structure CandidateProj where
  name : String
  email : String
deriving DecidableEq

/-- Population of the `candidate` reference with the `{name, email}`
projection; a dangling reference populates to `none`. -/
def populateCandidate (db : DB) (cid : Id) : Option CandidateProj :=
  (db.users.find? (fun u => u.id == cid)).map (fun u => { name := u.name, email := u.email })

/-- Ordering used by `.sort({ createdAt: -1 })`: newest first. -/
def createdAtDesc (a b : Application) : Prop := b.createdAt ≤ a.createdAt

instance : DecidableRel createdAtDesc := fun a b => Nat.decLe b.createdAt a.createdAt

instance : IsTotal Application createdAtDesc :=
  ⟨fun a b => Nat.le_total b.createdAt a.createdAt⟩

instance : IsTrans Application createdAtDesc :=
  ⟨fun _ _ _ hab hbc => Nat.le_trans hbc hab⟩

/-- Route `router.get('/job/:jobId')` in `src/routes/applications.js`
(lines 86-123): `findById` on the job — a malformed id throws a `CastError`
mapped to 404 by the catch block — 404 when absent, 401 when the requester
is not the job's employer, otherwise the applications whose `job` field
equals the queried id, populated with the candidate `{name, email}`
projection and sorted by `createdAt` descending.  The route reads state but
never writes it. -/
def listByJob (db : DB) (requester : User) (rawJobId : RawId) :
    Except ErrKind (List (Application × Option CandidateProj)) :=
  match castId rawJobId with
  | none => .error .notFound
  | some jobId =>
    match db.jobs.find? (fun j => j.id == jobId) with
    | none => .error .notFound
    | some job =>
      if job.employer != requester.id then .error .unauthorized
      else
        .ok (((db.applications.filter (fun a => a.job == jobId)).insertionSort
                createdAtDesc).map
          (fun a => (a, populateCandidate db a.candidate)))

/-- Concrete fixture: an active job owned by employer 10. -/
def exJob : Job :=
  { id := 1, title := "Engineer", company := "Acme", location := "NYC",
    employer := 10, isActive := true, createdAt := 5 }

/-- Concrete fixture: a deactivated job owned by employer 10. -/
def exInactiveJob : Job :=
  { id := 2, title := "Old role", company := "Acme", location := "NYC",
    employer := 10, isActive := false, createdAt := 3 }

/-- Concrete fixture: the employer owning both fixture jobs. -/
def exEmployer : User :=
  { id := 10, name := "Emma", email := "emma at acme", role := Role.employer }

/-- Concrete fixture: an admin who owns no job. -/
def exAdmin : User :=
  { id := 99, name := "Ada", email := "ada at site", role := Role.admin }

/-- Concrete fixture: a candidate. -/
def exCandidate : User :=
  { id := 20, name := "Carl", email := "carl at mail", role := Role.candidate }

/-- Concrete fixture: an application by candidate 20 to job 1. -/
def exApp : Application :=
  { id := 1, job := 1, candidate := 20, resume := "resume text",
    coverLetter := none, status := "pending", createdAt := 7 }

/-- Concrete fixture database tying the fixtures together. -/
def exDB : DB :=
  { users := [exEmployer, exAdmin, exCandidate],
    jobs := [exJob, exInactiveJob],
    applications := [exApp],
    nextAppId := 2 }

/-- Uniqueness invariant of the Application ledger: at most one record per
`(job, candidate)` pair. -/
def pairUnique (db : DB) : Prop :=
  db.applications.Pairwise (fun a b => ¬(a.job = b.job ∧ a.candidate = b.candidate))

/-- Primary-key invariant: application `_id`s are pairwise distinct. -/
def idUnique (db : DB) : Prop :=
  db.applications.Pairwise (fun a b => a.id ≠ b.id)

/-- Freshness of the id source: every stored application id is below the
next id the store will generate. -/
def idsFresh (db : DB) : Prop :=
  ∀ a ∈ db.applications, a.id < db.nextAppId

/-! ### Helper lemmas -/

/-- Looking up `appId` after replacing every record with that id by `upd`
(with `upd.id = app.id`) yields `upd`. -/
theorem find?_map_update (l : List Application) (appId : Id) (app upd : Application)
    (hid : upd.id = app.id) :
    l.find? (fun a => a.id == appId) = some app →
    (l.map (fun a => if a.id == appId then upd else a)).find? (fun a => a.id == appId) =
      some upd := by
  induction l with
  | nil => intro h; simp at h
  | cons h t ih =>
    intro hfind
    by_cases hc : (h.id == appId) = true
    · rw [List.find?_cons_of_pos (p := fun a : Application => a.id == appId) _ hc] at hfind
      injection hfind with happ
      subst happ
      rw [List.map_cons, if_pos hc]
      have hupd : (upd.id == appId) = true := by rw [hid]; exact hc
      exact List.find?_cons_of_pos (p := fun a : Application => a.id == appId) _ hupd
    · rw [List.find?_cons_of_neg (p := fun a : Application => a.id == appId) _ hc] at hfind
      rw [List.map_cons, if_neg hc]
      rw [List.find?_cons_of_neg (p := fun a : Application => a.id == appId) _ hc]
      exact ih hfind

/-- Mapping a function that respects a relation on the members of a list
preserves pairwise-ness of that relation. -/
theorem pairwise_map_preserve {R : Application → Application → Prop}
    {f : Application → Application} {l : List Application}
    (h : ∀ a ∈ l, ∀ b ∈ l, R a b → R (f a) (f b)) (hp : l.Pairwise R) :
    (l.map f).Pairwise R := by
  rw [List.pairwise_map]
  exact hp.imp_of_mem fun ha hb hr => h _ ha _ hb hr

/-- Under pairwise-distinct ids, the status-update map leaves the `job`,
`candidate` and `id` fields of every record unchanged. -/
theorem update_preserves_fields (l : List Application) (appId : Id) (app : Application)
    (status : String)
    (hfind : l.find? (fun a => a.id == appId) = some app)
    (hid : l.Pairwise (fun a b => a.id ≠ b.id)) :
    ∀ a ∈ l,
      (if a.id == appId then { app with status := status } else a).job = a.job ∧
      (if a.id == appId then { app with status := status } else a).candidate = a.candidate ∧
      (if a.id == appId then { app with status := status } else a).id = a.id := by
  intro a ha
  by_cases hc : (a.id == appId) = true
  · have happmem := List.mem_of_find?_eq_some hfind
    have happid : (app.id == appId) = true :=
      List.find?_some (p := fun a : Application => a.id == appId) hfind
    have haeq : a = app := by
      by_contra hne
      have hsym : Symmetric (fun a b : Application => a.id ≠ b.id) :=
        fun _ _ hxy => Ne.symm hxy
      exact (hid.forall hsym ha happmem hne)
        ((beq_iff_eq.mp hc).trans (beq_iff_eq.mp happid).symm)
    subst haeq
    rw [if_pos hc]
    exact ⟨rfl, rfl, rfl⟩
  · rw [if_neg hc]
    exact ⟨rfl, rfl, rfl⟩

/-- Storage-layer fact: a successful insert implies no record with the same
`(job, candidate)` pair was present — the unique index rejects duplicates
regardless of what the route checked beforehand. -/
theorem save_rejects_duplicate (db : DB) (a : Application) (db2 : DB)
    (hsave : saveNewApplication db a = .ok db2) :
    ∀ b ∈ db.applications, ¬(b.job = a.job ∧ b.candidate = a.candidate) := by
  intro b hb hcontra
  by_cases hany : db.applications.any
      (fun x => x.job == a.job && x.candidate == a.candidate) = true
  · rw [saveNewApplication, if_pos hany] at hsave
    exact Except.noConfusion hsave
  · apply hany
    rw [List.any_eq_true]
    refine ⟨b, hb, ?_⟩
    rw [Bool.and_eq_true, beq_iff_eq, beq_iff_eq]
    exact hcontra

/-- Storage-layer fact: a successful insert appends the new record and bumps
the id source. -/
theorem save_ok_applications (db : DB) (a : Application) (db2 : DB)
    (hsave : saveNewApplication db a = .ok db2) :
    db2 = { db with applications := db.applications ++ [a],
                    nextAppId := db.nextAppId + 1 } := by
  by_cases hany : db.applications.any
      (fun x => x.job == a.job && x.candidate == a.candidate) = true
  · rw [saveNewApplication, if_pos hany] at hsave
    exact Except.noConfusion hsave
  · rw [saveNewApplication, if_neg hany] at hsave
    exact (Except.ok.inj hsave).symm

/-- Storage-layer fact: a successful insert preserves pair-uniqueness. -/
theorem save_pairUnique (db : DB) (a : Application) (db2 : DB)
    (hsave : saveNewApplication db a = .ok db2) (hp : pairUnique db) :
    pairUnique db2 := by
  have hdup := save_rejects_duplicate db a db2 hsave
  rw [save_ok_applications db a db2 hsave]
  show List.Pairwise _ (db.applications ++ [a])
  rw [List.pairwise_append]
  refine ⟨hp, List.pairwise_singleton _ _, ?_⟩
  intro x hx y hy
  rw [List.mem_singleton] at hy
  subst hy
  exact hdup x hx

/-- Case shape of `create`: every call either fails, leaving the state
unchanged and emitting nothing, or succeeds with the active job found and
exactly one `newApplication` event scoped to that job's employer. -/
theorem create_shape (db : DB) (cid jobId : Id) (r : String) (c : Option String)
    (t : Nat) :
    (∃ e, create db cid jobId r c t = (.error e, db, [])) ∨
    (∃ job app db2,
      db.jobs.find? (fun j => j.id == jobId && j.isActive) = some job ∧
      create db cid jobId r c t =
        (.ok app, db2,
          [{ room := "employer-" ++ toString job.employer,
             name := "newApplication",
             payload := [("jobId", PValue.nat job.id),
                         ("jobTitle", PValue.str job.title),
                         ("applicationId", PValue.nat app.id)] }])) := by
  simp only [create]
  split
  · exact Or.inl ⟨.notFound, rfl⟩
  rename_i job hjf
  split
  · exact Or.inl ⟨.conflict, rfl⟩
  split
  · exact Or.inl ⟨.internal, rfl⟩
  rename_i db2 hsave
  exact Or.inr ⟨job, _, db2, hjf, rfl⟩

/-- Case shape of `updateStatus`: every call either fails, leaving the
state unchanged and emitting nothing, or succeeds with the application and
its job resolved and exactly one `applicationStatusUpdated` event scoped to
the application's candidate. -/
theorem updateStatus_shape (db : DB) (requester : User) (raw : RawId)
    (status : String) :
    (∃ e, updateStatus db requester raw status = (.error e, db, [])) ∨
    (∃ appId application job,
      castId raw = some appId ∧
      db.applications.find? (fun a => a.id == appId) = some application ∧
      db.jobs.find? (fun j => j.id == application.job) = some job ∧
      updateStatus db requester raw status =
        (.ok { application with status := status },
         { db with applications := (db.applications.map (fun a =>
             if a.id == appId then { application with status := status } else a)) },
         [{ room := "user-" ++ toString application.candidate,
            name := "applicationStatusUpdated",
            payload := [("applicationId", PValue.nat application.id),
                        ("jobTitle", PValue.str job.title),
                        ("newStatus", PValue.str status)] }])) := by
  simp only [updateStatus]
  split
  · exact Or.inl ⟨.forbidden, rfl⟩
  split
  · exact Or.inl ⟨.badRequest, rfl⟩
  split
  · exact Or.inl ⟨.notFound, rfl⟩
  rename_i appId hcast
  split
  · exact Or.inl ⟨.notFound, rfl⟩
  rename_i application haf
  split
  · exact Or.inl ⟨.unauthorized, rfl⟩
  rename_i job hjf
  split
  · exact Or.inl ⟨.unauthorized, rfl⟩
  exact Or.inr ⟨appId, application, job, hcast, haf, hjf, rfl⟩

/-! ### Claim theorems -/

/-- C3: the `(job, candidate)` uniqueness invariant.  A direct storage-layer
insert — with no application-level pre-check — errors whenever a record
with the same pair exists, and preserves pair-uniqueness when it succeeds;
both route operations that write state (`create` and `updateStatus`)
preserve pair-uniqueness (for `updateStatus` under the primary-key
invariant that stored `_id`s are pairwise distinct, which the external
store guarantees).  `listByJob` never writes state (its result type carries
no database). -/
theorem application_pair_uniqueness (db : DB) :
    (∀ a db2, saveNewApplication db a = .ok db2 →
      ∀ b ∈ db.applications, ¬(b.job = a.job ∧ b.candidate = a.candidate)) ∧
    (∀ a db2, saveNewApplication db a = .ok db2 → pairUnique db → pairUnique db2) ∧
    (∀ cid jobId r c t, pairUnique db →
      pairUnique (create db cid jobId r c t).2.1) ∧
    (∀ requester raw status, pairUnique db → idUnique db →
      pairUnique (updateStatus db requester raw status).2.1) := by
  refine ⟨save_rejects_duplicate db, save_pairUnique db, ?_, ?_⟩
  · intro cid jobId r c t hp
    simp only [create]
    cases hjf : db.jobs.find? (fun j => j.id == jobId && j.isActive) with
    | none => exact hp
    | some job =>
      cases haf : db.applications.find?
          (fun a => a.job == jobId && a.candidate == cid) with
      | some a0 => exact hp
      | none =>
        cases hs : saveNewApplication db
            { id := db.nextAppId, job := jobId, candidate := cid, resume := r,
              coverLetter := c, status := "pending", createdAt := t } with
        | error e => exact hp
        | ok db2 => exact save_pairUnique db _ db2 hs hp
  · intro requester raw status hp hid
    simp only [updateStatus]
    split
    · exact hp
    split
    · exact hp
    split
    · exact hp
    rename_i appId hcast
    split
    · exact hp
    rename_i application haf
    split
    · exact hp
    rename_i job hjf
    split
    · exact hp
    have hfields := update_preserves_fields db.applications appId
      application status haf hid
    simp only [pairUnique]
    exact pairwise_map_preserve
      (fun a ha b hb hr => by
        obtain ⟨hja, hca, _⟩ := hfields a ha
        obtain ⟨hjb, hcb, _⟩ := hfields b hb
        rw [hja, hca, hjb, hcb]
        exact hr) hp

/-- C3 (witness): on the fixture database (pairwise-unique pairs and ids), a
status update keeps the ledger pair-unique. -/
theorem application_pair_uniqueness_witness :
    pairUnique (updateStatus exDB exEmployer (RawId.valid 1) "accepted").2.1 :=
  (application_pair_uniqueness exDB).2.2.2 exEmployer (RawId.valid 1) "accepted"
    (by simp [pairUnique, exDB]) (by simp [idUnique, exDB])

/-- C8: a successful `create` emits exactly one `newApplication` event to
room `employer-{job.employer}` with payload fields jobId, jobTitle,
applicationId; a successful `updateStatus` emits exactly one
`applicationStatusUpdated` event to room `user-{application.candidate}`
with payload fields applicationId, jobTitle, newStatus; every failing call
emits no event. -/
theorem emit_events_contract (db : DB) (cid jobId : Id) (r : String)
    (c : Option String) (t : Nat) (requester : User) (raw : RawId)
    (status : String) :
    (∀ app, (create db cid jobId r c t).1 = .ok app →
      ∃ job, db.jobs.find? (fun j => j.id == jobId && j.isActive) = some job ∧
        (create db cid jobId r c t).2.2 =
          [{ room := "employer-" ++ toString job.employer,
             name := "newApplication",
             payload := [("jobId", PValue.nat job.id),
                         ("jobTitle", PValue.str job.title),
                         ("applicationId", PValue.nat app.id)] }]) ∧
    (∀ e, (create db cid jobId r c t).1 = .error e →
      (create db cid jobId r c t).2.2 = []) ∧
    (∀ app, (updateStatus db requester raw status).1 = .ok app →
      ∃ job, db.jobs.find? (fun j => j.id == app.job) = some job ∧
        (updateStatus db requester raw status).2.2 =
          [{ room := "user-" ++ toString app.candidate,
             name := "applicationStatusUpdated",
             payload := [("applicationId", PValue.nat app.id),
                         ("jobTitle", PValue.str job.title),
                         ("newStatus", PValue.str status)] }]) ∧
    (∀ e, (updateStatus db requester raw status).1 = .error e →
      (updateStatus db requester raw status).2.2 = []) := by
  refine ⟨?_, ?_, ?_, ?_⟩
  · intro app hok
    rcases create_shape db cid jobId r c t with ⟨e, heq⟩ | ⟨job, app', db2, hjf, heq⟩
    · rw [heq] at hok
      exact absurd hok (by simp)
    · rw [heq] at hok
      obtain rfl : app' = app := Except.ok.inj hok
      exact ⟨job, hjf, by rw [heq]⟩
  · intro e herr
    rcases create_shape db cid jobId r c t with ⟨e', heq⟩ | ⟨job, app', db2, hjf, heq⟩
    · rw [heq]
    · rw [heq] at herr
      exact absurd herr (by simp)
  · intro app hok
    rcases updateStatus_shape db requester raw status with
      ⟨e, heq⟩ | ⟨appId, application, job, hcast, haf, hjf, heq⟩
    · rw [heq] at hok
      exact absurd hok (by simp)
    · rw [heq] at hok
      obtain rfl : { application with status := status } = app := Except.ok.inj hok
      exact ⟨job, hjf, by rw [heq]⟩
  · intro e herr
    rcases updateStatus_shape db requester raw status with
      ⟨e', heq⟩ | ⟨appId, application, job, hcast, haf, hjf, heq⟩
    · rw [heq]
    · rw [heq] at herr
      exact absurd herr (by simp)

/-- C8 (witness): the duplicate application attempt emits nothing, and a
failing status update emits nothing. -/
theorem emit_events_contract_witness :
    (create exDB 20 1 "r" none 9).2.2 = [] ∧
    (updateStatus exDB exEmployer (RawId.valid 1) "bogus").2.2 = [] :=
  ⟨(emit_events_contract exDB 20 1 "r" none 9 exEmployer (RawId.valid 1)
      "bogus").2.1 ErrKind.conflict rfl,
   (emit_events_contract exDB 20 1 "r" none 9 exEmployer (RawId.valid 1)
      "bogus").2.2.2 ErrKind.badRequest rfl⟩

/-- C9: `listByJob` fails with 404 NotFound when no job has the queried id,
fails with 401 Unauthorized when the job exists but the requester is not
its employer, and otherwise returns exactly the applications whose `job`
field equals the queried id — as a list sorted by `createdAt` descending —
each paired with the `{name, email}` projection of its candidate. -/
theorem listByJob_spec (db : DB) (requester : User) (jobId : Id) :
    (db.jobs.find? (fun j => j.id == jobId) = none →
      listByJob db requester (RawId.valid jobId) = .error .notFound) ∧
    (∀ job, db.jobs.find? (fun j => j.id == jobId) = some job →
      job.employer ≠ requester.id →
      listByJob db requester (RawId.valid jobId) = .error .unauthorized) ∧
    (∀ job, db.jobs.find? (fun j => j.id == jobId) = some job →
      job.employer = requester.id →
      ∃ l, listByJob db requester (RawId.valid jobId) = .ok l ∧
        (l.map Prod.fst).Perm
          (db.applications.filter (fun a => a.job == jobId)) ∧
        (l.map Prod.fst).Sorted createdAtDesc ∧
        ∀ p ∈ l, p.2 = populateCandidate db p.1.candidate) := by
  refine ⟨?_, ?_, ?_⟩
  · intro hnone
    simp [listByJob, castId, hnone]
  · intro job hjf hne
    have hbne : (job.employer != requester.id) = true := bne_iff_ne.mpr hne
    simp [listByJob, castId, hjf, hbne]
  · intro job hjf hown
    have hbne : (job.employer != requester.id) = false := by
      simp [bne, hown]
    refine ⟨((db.applications.filter (fun a => a.job == jobId)).insertionSort
        createdAtDesc).map (fun a => (a, populateCandidate db a.candidate)),
      ?_, ?_, ?_, ?_⟩
    · simp [listByJob, castId, hjf, hbne]
    · rw [List.map_map]
      have : (Prod.fst ∘ fun a : Application => (a, populateCandidate db a.candidate)) =
          (fun a => a) := rfl
      rw [this, List.map_id']
      exact List.perm_insertionSort createdAtDesc _
    · rw [List.map_map]
      have : (Prod.fst ∘ fun a : Application => (a, populateCandidate db a.candidate)) =
          (fun a => a) := rfl
      rw [this, List.map_id']
      exact List.sorted_insertionSort createdAtDesc _
    · intro p hp
      rw [List.mem_map] at hp
      obtain ⟨a, _, rfl⟩ := hp
      rfl

/-- C9 (witness): the fixture employer lists the applications of job 1 and
receives exactly the one matching application with its candidate
projection, newest first. -/
theorem listByJob_spec_witness :
    ∃ l, listByJob exDB exEmployer (RawId.valid 1) = .ok l ∧
      (l.map Prod.fst).Perm
        (exDB.applications.filter (fun a => a.job == 1)) ∧
      (l.map Prod.fst).Sorted createdAtDesc ∧
      ∀ p ∈ l, p.2 = populateCandidate exDB p.1.candidate :=
  (listByJob_spec exDB exEmployer 1).2.2 exJob rfl rfl

/-- C6: when no active job matches `jobId` — the job is absent or exists
with `isActive = false` — `create` fails with 404 NotFound, creates no
record and emits no event. -/
theorem create_no_active_job_notFound (db : DB) (cid jobId : Id) (resume : String)
    (cl : Option String) (now : Nat)
    (h : ∀ j ∈ db.jobs, j.id = jobId → j.isActive = false) :
    create db cid jobId resume cl now = (.error .notFound, db, []) := by
  have hfind : db.jobs.find? (fun j => j.id == jobId && j.isActive) = none := by
    rw [List.find?_eq_none]
    intro j hj
    simp only [Bool.and_eq_true, beq_iff_eq]
    rintro ⟨h1, h2⟩
    rw [h j hj h1] at h2
    exact Bool.false_ne_true h2
  simp [create, hfind]

/-- C6 (witness): applying to the deactivated fixture job 2 fails with 404
and leaves the database unchanged. -/
theorem create_no_active_job_notFound_witness :
    create exDB 20 2 "cv" none 9 = (.error .notFound, exDB, []) :=
  create_no_active_job_notFound exDB 20 2 "cv" none 9 (by decide)

/-- C7: a successful `create` (active job found, no prior application for
the pair) returns a record with status `pending` referencing the given job
and candidate and storing the supplied resume and cover letter, and that
record is added to the store. -/
theorem create_success_record_fields (db : DB) (cid jobId : Id) (resume : String)
    (cl : Option String) (now : Nat) (job : Job)
    (hjob : db.jobs.find? (fun j => j.id == jobId && j.isActive) = some job)
    (hnodup : db.applications.find?
      (fun a => a.job == jobId && a.candidate == cid) = none) :
    ∃ app, (create db cid jobId resume cl now).1 = .ok app ∧
      app.status = "pending" ∧ app.job = jobId ∧ app.candidate = cid ∧
      app.resume = resume ∧ app.coverLetter = cl ∧
      app ∈ (create db cid jobId resume cl now).2.1.applications := by
  have hany : db.applications.any
      (fun b => b.job == jobId && b.candidate == cid) = false := by
    rw [List.any_eq_false]
    exact List.find?_eq_none.mp hnodup
  refine ⟨{ id := db.nextAppId, job := jobId, candidate := cid, resume := resume,
            coverLetter := cl, status := "pending", createdAt := now },
          ?_, rfl, rfl, rfl, rfl, rfl, ?_⟩
  · simp [create, hjob, hnodup, saveNewApplication, hany]
  · simp [create, hjob, hnodup, saveNewApplication, hany]

/-- C2: with an existing active job and no prior application for the pair,
calling `create` twice for the same `(jobId, candidateId)` yields one
successful Application, a 400 Conflict on the second call that leaves the
store untouched, and exactly one stored record for the pair. -/
theorem create_twice_conflict (db : DB) (cid jobId : Id)
    (r1 r2 : String) (c1 c2 : Option String) (t1 t2 : Nat) (job : Job)
    (hjob : db.jobs.find? (fun j => j.id == jobId && j.isActive) = some job)
    (hnodup : ∀ a ∈ db.applications, ¬(a.job = jobId ∧ a.candidate = cid)) :
    ∃ app, (create db cid jobId r1 c1 t1).1 = .ok app ∧
      (create (create db cid jobId r1 c1 t1).2.1 cid jobId r2 c2 t2).1 =
        .error .conflict ∧
      (create (create db cid jobId r1 c1 t1).2.1 cid jobId r2 c2 t2).2.1 =
        (create db cid jobId r1 c1 t1).2.1 ∧
      ((create db cid jobId r1 c1 t1).2.1.applications.filter
        (fun a => a.job == jobId && a.candidate == cid)).length = 1 := by
  have happlied : ∀ a ∈ db.applications,
      ¬((a.job == jobId && a.candidate == cid) = true) := by
    intro a ha hcontra
    rw [Bool.and_eq_true, beq_iff_eq, beq_iff_eq] at hcontra
    exact hnodup a ha hcontra
  have hnone : db.applications.find?
      (fun a => a.job == jobId && a.candidate == cid) = none :=
    List.find?_eq_none.mpr happlied
  have hany : db.applications.any
      (fun a => a.job == jobId && a.candidate == cid) = false :=
    List.any_eq_false.mpr happlied
  have hfilter : db.applications.filter
      (fun a => a.job == jobId && a.candidate == cid) = [] :=
    List.filter_eq_nil_iff.mpr happlied
  refine ⟨{ id := db.nextAppId, job := jobId, candidate := cid, resume := r1,
            coverLetter := c1, status := "pending", createdAt := t1 },
          ?_, ?_, ?_, ?_⟩
  · simp [create, hjob, hnone, saveNewApplication, hany]
  · simp [create, hjob, hnone, saveNewApplication, hany, List.find?_append]
  · simp [create, hjob, hnone, saveNewApplication, hany, List.find?_append]
  · simp [create, hjob, hnone, saveNewApplication, hany, List.filter_append, hfilter]

/-- C2 (witness): candidate 30 applies twice to the active fixture job 1;
the first call succeeds, the second fails with Conflict and one record for
the pair remains. -/
theorem create_twice_conflict_witness :
    ∃ app, (create exDB 30 1 "cv one" none 8).1 = .ok app ∧
      (create (create exDB 30 1 "cv one" none 8).2.1 30 1 "cv two" none 9).1 =
        .error .conflict ∧
      (create (create exDB 30 1 "cv one" none 8).2.1 30 1 "cv two" none 9).2.1 =
        (create exDB 30 1 "cv one" none 8).2.1 ∧
      ((create exDB 30 1 "cv one" none 8).2.1.applications.filter
        (fun a => a.job == 1 && a.candidate == 30)).length = 1 :=
  create_twice_conflict exDB 30 1 "cv one" "cv two" none none 8 9 exJob rfl (by decide)

/-- C7 (witness): candidate 30 applying to the active fixture job 1
succeeds with a `pending` record holding the supplied documents. -/
theorem create_success_record_fields_witness :
    ∃ app, (create exDB 30 1 "my resume" (some "dear") 9).1 = .ok app ∧
      app.status = "pending" ∧ app.job = 1 ∧ app.candidate = 30 ∧
      app.resume = "my resume" ∧ app.coverLetter = some "dear" ∧
      app ∈ (create exDB 30 1 "my resume" (some "dear") 9).2.1.applications :=
  create_success_record_fields exDB 30 1 "my resume" (some "dear") 9 exJob rfl rfl

/-- C1 (counterexample): the admin `exAdmin` does not own job 1, the
application and its job exist and the status is one of the four enumerated
values, yet the call does not succeed: the `authorizeEmployer` middleware
rejects any non-employer role — including admins — with 403 before the
handler runs.  There is no admin override on this route. -/
theorem updateStatus_admin_no_override_cex :
    exAdmin.role = Role.admin ∧
    exAdmin.id ≠ exJob.employer ∧
    exDB.applications.find? (fun a => a.id == 1) = some exApp ∧
    exDB.jobs.find? (fun j => j.id == exApp.job) = some exJob ∧
    validStatus "reviewing" = true ∧
    updateStatus exDB exAdmin (RawId.valid 1) "reviewing" =
      (.error .forbidden, exDB, []) :=
  ⟨rfl, by decide, rfl, rfl, rfl, rfl⟩

/-- C1 (amended): for a call where the application and its owning job exist
and the status is one of the four enumerated values, a requester whose role
is not `employer` (in particular any admin) is rejected by the
`authorizeEmployer` middleware with 403; for an employer-role requester the
call fails with 401 Unauthorized exactly when the requester's id differs
from the job's employer id.  There is no admin override. -/
theorem updateStatus_authorization (db : DB) (requester : User) (appId : Id)
    (status : String) (app : Application) (job : Job)
    (happ : db.applications.find? (fun a => a.id == appId) = some app)
    (hjob : db.jobs.find? (fun j => j.id == app.job) = some job)
    (hstatus : validStatus status = true) :
    (requester.role ≠ Role.employer →
      (updateStatus db requester (RawId.valid appId) status).1 = .error .forbidden) ∧
    (requester.role = Role.employer →
      ((updateStatus db requester (RawId.valid appId) status).1 = .error .unauthorized ↔
        requester.id ≠ job.employer)) := by
  constructor
  · intro hr
    have hauth : authorizeEmployer requester = false := by
      simp [authorizeEmployer, hr]
    simp [updateStatus, hauth]
  · intro hr
    have hauth : authorizeEmployer requester = true := by
      simp [authorizeEmployer, hr]
    by_cases hown : job.employer = requester.id
    · simp [updateStatus, hauth, hstatus, castId, happ, hjob, hown]
    · simp [updateStatus, hauth, hstatus, castId, happ, hjob, hown]
      exact fun h => hown h.symm

/-- C1 (witness for the amended theorem): a candidate-role requester is
rejected with 403, and the owning employer is not rejected with 401. -/
theorem updateStatus_authorization_witness :
    (updateStatus exDB exCandidate (RawId.valid 1) "reviewing").1 = .error .forbidden ∧
    ¬((updateStatus exDB exEmployer (RawId.valid 1) "reviewing").1 =
        .error .unauthorized) := by
  constructor
  · exact (updateStatus_authorization exDB exCandidate 1 "reviewing" exApp exJob
      rfl rfl rfl).1 (by decide)
  · intro hcontra
    exact (by decide : ¬(exEmployer.id ≠ exJob.employer))
      (((updateStatus_authorization exDB exEmployer 1 "reviewing" exApp exJob
        rfl rfl rfl).2 rfl).mp hcontra)

/-- C4: for an employer-role requester who owns the application's job, the
call fails with 400 BadRequest exactly on a status outside the four
enumerated values; for any of the four values — including the current
status and "backward" moves — it succeeds, stores the new status and
returns the updated record. -/
theorem updateStatus_permissive_state_machine (db : DB) (requester : User) (appId : Id)
    (status : String) (app : Application) (job : Job)
    (hrole : requester.role = Role.employer)
    (happ : db.applications.find? (fun a => a.id == appId) = some app)
    (hjob : db.jobs.find? (fun j => j.id == app.job) = some job)
    (hown : requester.id = job.employer) :
    (validStatus status = false →
      updateStatus db requester (RawId.valid appId) status =
        (.error .badRequest, db, [])) ∧
    (validStatus status = true →
      (updateStatus db requester (RawId.valid appId) status).1 =
        .ok { app with status := status } ∧
      ((updateStatus db requester (RawId.valid appId) status).2.1.applications.find?
        (fun a => a.id == appId) = some { app with status := status })) := by
  have hauth : authorizeEmployer requester = true := by
    simp [authorizeEmployer, hrole]
  constructor
  · intro hs
    simp [updateStatus, hauth, hs]
  · intro hs
    have hown' : job.employer = requester.id := hown.symm
    constructor
    · simp [updateStatus, hauth, hs, castId, happ, hjob, hown']
    · simp only [updateStatus, hauth, Bool.not_true, Bool.false_eq_true, if_false, hs,
        castId, happ, hjob, hown', bne_self_eq_false, Bool.false_eq_true]
      exact find?_map_update db.applications appId app _ rfl happ

/-- C4 (witness): on the fixture, an out-of-range status is rejected with
400, and a no-op update to the current status `pending` succeeds. -/
theorem updateStatus_permissive_state_machine_witness :
    updateStatus exDB exEmployer (RawId.valid 1) "archived" =
      (.error .badRequest, exDB, []) ∧
    (updateStatus exDB exEmployer (RawId.valid 1) "pending").1 =
      .ok { exApp with status := "pending" } := by
  constructor
  · exact (updateStatus_permissive_state_machine exDB exEmployer 1 "archived"
      exApp exJob rfl rfl rfl rfl).1 rfl
  · exact ((updateStatus_permissive_state_machine exDB exEmployer 1 "pending"
      exApp exJob rfl rfl rfl rfl).2 rfl).1

/-- C5 (counterexample): with an employer-role requester, no application
with id 5 exists and the status string is outside the four enumerated
values, yet the call fails with 400 BadRequest, not 404 NotFound: the route
validates the status before looking the application up. -/
theorem updateStatus_status_checked_before_lookup_cex :
    exDB.applications.find? (fun a => a.id == 5) = none ∧
    validStatus "archived" = false ∧
    updateStatus exDB exEmployer (RawId.valid 5) "archived" =
      (.error .badRequest, exDB, []) ∧
    (updateStatus exDB exEmployer (RawId.valid 5) "archived").1 ≠
      .error .notFound :=
  ⟨rfl, rfl, rfl, by decide⟩

/-- C5 (amended): for an employer-role requester, when no application with
the given id exists the call fails with 404 NotFound provided the status is
one of the four enumerated values; when the status is outside them the call
fails with 400 BadRequest even though the application is also missing (the
status check runs before the application lookup). -/
theorem updateStatus_missing_application (db : DB) (requester : User) (appId : Id)
    (status : String)
    (hrole : requester.role = Role.employer)
    (hnone : db.applications.find? (fun a => a.id == appId) = none) :
    (validStatus status = true →
      updateStatus db requester (RawId.valid appId) status =
        (.error .notFound, db, [])) ∧
    (validStatus status = false →
      updateStatus db requester (RawId.valid appId) status =
        (.error .badRequest, db, [])) := by
  have hauth : authorizeEmployer requester = true := by
    simp [authorizeEmployer, hrole]
  constructor
  · intro hs
    simp [updateStatus, hauth, hs, castId, hnone]
  · intro hs
    simp [updateStatus, hauth, hs]

/-- C5 (witness for the amended theorem): on the fixture, updating the
absent application 42 with a valid status yields 404 NotFound. -/
theorem updateStatus_missing_application_witness :
    updateStatus exDB exEmployer (RawId.valid 42) "accepted" =
      (.error .notFound, exDB, []) :=
  (updateStatus_missing_application exDB exEmployer 42 "accepted" rfl rfl).1 rfl

/-- C10 (counterexample): a malformed application id combined with a status
outside the four enumerated values fails with 400 BadRequest, not 404
NotFound: the status check precedes the lookup that would raise the
`ObjectId` cast error. -/
theorem malformed_id_badStatus_cex :
    castId (RawId.malformed "12z") = none ∧
    (updateStatus exDB exEmployer (RawId.malformed "12z") "archived").1 =
      .error .badRequest ∧
    (updateStatus exDB exEmployer (RawId.malformed "12z") "archived").1 ≠
      .error .notFound :=
  ⟨rfl, rfl, by decide⟩

/-- C10 (amended): a malformed `jobId` makes `listByJob` fail with 404
NotFound (the `ObjectId` cast error is mapped to NotFound, never Internal);
a malformed application id makes `updateStatus` fail with 404 NotFound and
leave the state unchanged, provided the requester passes the employer-role
middleware and the status is one of the four enumerated values (otherwise
the earlier 403/400 checks fire first). -/
theorem malformed_id_maps_to_notFound (db : DB) (requester : User) (s status : String) :
    listByJob db requester (RawId.malformed s) = .error .notFound ∧
    (requester.role = Role.employer → validStatus status = true →
      updateStatus db requester (RawId.malformed s) status =
        (.error .notFound, db, [])) := by
  constructor
  · rfl
  · intro hrole hs
    have hauth : authorizeEmployer requester = true := by
      simp [authorizeEmployer, hrole]
    simp [updateStatus, hauth, hs, castId]

/-- C10 (witness for the amended theorem): malformed ids on the fixture
database yield 404 NotFound on both routes. -/
theorem malformed_id_maps_to_notFound_witness :
    listByJob exDB exEmployer (RawId.malformed "oops") = .error .notFound ∧
    updateStatus exDB exEmployer (RawId.malformed "oops") "accepted" =
      (.error .notFound, exDB, []) :=
  ⟨(malformed_id_maps_to_notFound exDB exEmployer "oops" "accepted").1,
   (malformed_id_maps_to_notFound exDB exEmployer "oops" "accepted").2 rfl rfl⟩

end JobBoard
